import Mathlib

/-!
Formal model of the Auth-Blog Express application (`server.js`, `models.js`).

The JavaScript sources are shallowly embedded: each route handler becomes a
pure Lean function from the request data and the current store contents to
the HTTP response and the new store contents.  JavaScript-specific behaviour
that the handlers rely on (truthiness, `typeof`-checks, `String.prototype.trim`,
template-literal interpolation of `undefined`) is modelled explicitly.
The document store (mongoose/MongoDB) is an external collaborator; its
`create` / `findOne` / `findById` / `findByIdAndUpdate` / `count` operations
are modelled as list operations.  The bcrypt hash and compare functions are
external as well and enter the model as function parameters.
-/

/-- JSON-ish JavaScript values, as far as the handlers inspect them:
strings, numbers, booleans, `null`, and a catch-all for other objects
(which are truthy and not of `typeof` string).  An absent field is
modelled by `Option.none` at the use site. -/
inductive JValue where
  | str (s : String)
  | num (n : Int)
  | bool (b : Bool)
  | null
  | obj
deriving DecidableEq

/-- JavaScript truthiness of a value: `""`, `0`, `false` and `null` are
falsy, every other modelled value is truthy. -/
def jsTruthy : JValue → Bool
  | .str s => s != ""
  | .num n => n != 0
  | .bool b => b
  | .null => false
  | .obj => true

/-- Truthiness of a possibly-absent field (`undefined` is falsy). -/
def jsTruthyOpt : Option JValue → Bool
  | none => false
  | some v => jsTruthy v

/-- `typeof v === 'string'`. -/
def jsIsString : JValue → Bool
  | .str _ => true
  | _ => false

/-- The whitespace characters removed by `String.prototype.trim`
(ASCII subset: space, tab, line feed, carriage return, vertical tab,
form feed). -/
def isJsWs (c : Char) : Bool :=
  c == ' ' || c == '\t' || c == '\n' || c == '\r' || c == '\x0b' || c == '\x0c'

/-- `trim` on the character list: drop whitespace from the front, then
from the back (implemented by reversing, dropping, and reversing back). -/
def jsTrimList (l : List Char) : List Char :=
  ((l.dropWhile isJsWs).reverse.dropWhile isJsWs).reverse

/-- `String.prototype.trim`. -/
def jsTrim (s : String) : String :=
  ⟨jsTrimList s.data⟩

/-- Template-literal interpolation of a field that may be `undefined`:
`` `${x}` `` renders a missing value as the text `"undefined"`. -/
def jsShow : Option String → String
  | none => "undefined"
  | some s => s

/-- `author` subdocument of a blog post (`models.js` lines 7-10); both
name fields are optional. -/
structure Author where
  firstName : Option String
  lastName : Option String
deriving DecidableEq

/-- A stored blog-post document (`blogPostSchema`, `models.js` lines 6-14).
The store-generated identifier is an opaque string; `created` is an
abstract timestamp. -/
structure BlogPost where
  id : String
  author : Author
  title : String
  content : String
  created : Nat
deriving DecidableEq

/-- The `authorName` virtual (`models.js` lines 24-26):
`` `${this.author.firstName} ${this.author.lastName}`.trim() ``.
A missing name interpolates as the literal text `"undefined"`. -/
def BlogPost.authorName (p : BlogPost) : String :=
  jsTrim (jsShow p.author.firstName ++ " " ++ jsShow p.author.lastName)

/-- The public representation of a post returned by
`blogPostSchema.methods.apiRepr` (`models.js` lines 28-36). -/
structure BlogPostRepr where
  id : String
  author : String
  content : String
  title : String
  created : Nat
deriving DecidableEq

/-- `blogPostSchema.methods.apiRepr`. -/
def BlogPost.apiRepr (p : BlogPost) : BlogPostRepr :=
  ⟨p.id, p.authorName, p.content, p.title, p.created⟩

/-- A stored user document (`userSchema`, `models.js` lines 16-21).
The `password` field holds whatever string was persisted for it. -/
structure UserRec where
  userName : String
  password : String
  firstName : Option String
  lastName : Option String
deriving DecidableEq

/-- The public representation of a user returned by
`userSchema.methods.apiRepr` (`models.js` lines 38-44); it has exactly
the fields `userName`, `firstName`, `lastName` and no password field. -/
structure UserRepr where
  userName : String
  firstName : Option String
  lastName : Option String
deriving DecidableEq

/-- `userSchema.methods.apiRepr`. -/
def UserRec.apiRepr (u : UserRec) : UserRepr :=
  ⟨u.userName, u.firstName, u.lastName⟩

/-- The instance methods actually registered on user documents.  Only
`apiRepr` is assigned to `userSchema.methods` (`models.js` line 38).
`validatePassword` is assigned to `userSchema.method` (`models.js`
line 46) - a property stored on the schema's `method` helper function -
so it is NOT registered as a document method. -/
def userSchemaMethods : List String :=
  ["apiRepr"]

/-- Whether `user.validatePassword` resolves to a function on a user
document.  It does not, because of the `method` / `methods` mix-up in
`models.js` line 46. -/
def hasValidatePassword : Bool :=
  userSchemaMethods.contains "validatePassword"

/-- Outcome of the passport Basic strategy for one request:
`unauthenticated` models `callback(null, false, ...)` (passport replies
401), `internalError` models `callback(err)` (an error propagates and the
response is 500), `authenticated u` models `callback(null, user)` (the
route handler runs with `u` attached). -/
inductive AuthOutcome where
  | unauthenticated
  | internalError
  | authenticated (u : UserRec)
deriving DecidableEq

/-- `User.findOne({userName: username})`: the first stored user with that
exact user name. -/
def findOneUser (store : List UserRec) (username : String) : Option UserRec :=
  store.find? (fun u => u.userName == username)

/-- The `basicStrategy` body (`server.js` lines 24-47), parameterised by
the external `bcrypt.compare` function.  If no user matches the name the
strategy fails with the generic message (HTTP 401).  If a user is found
the code calls `user.validatePassword(password)`; since that method was
never registered on documents (see `userSchemaMethods`), the call raises
`TypeError`, the promise chain rejects, and the `.catch` invokes
`callback(err)` - an internal error, not an authentication failure. -/
def basicStrategy (compare : String → String → Bool) (store : List UserRec)
    (username password : String) : AuthOutcome :=
  match findOneUser store username with
  | none => .unauthenticated
  | some user =>
    if hasValidatePassword then
      if compare password user.password then .authenticated user
      else .unauthenticated
    else .internalError

/-- `passport.authenticate('basic', {session: false})` applied to a
request: a missing or unparseable Authorization header makes passport-http
fail immediately (HTTP 401 challenge); otherwise the decoded
username/password pair is handed to `basicStrategy`. -/
def authGate (compare : String → String → Bool) (store : List UserRec)
    (credentials : Option (String × String)) : AuthOutcome :=
  match credentials with
  | none => .unauthenticated
  | some (u, p) => basicStrategy compare store u p

/-- HTTP status produced by the gate: 401 on authentication failure, 500
when the strategy errored, none when the request proceeds to the handler. -/
def authHttpStatus : AuthOutcome → Option Nat
  | .unauthenticated => some 401
  | .internalError => some 500
  | .authenticated _ => none

/-- Response bodies the modelled handlers produce: a post representation,
a user representation, or a message / error payload. -/
inductive RespBody where
  | postRepr (r : BlogPostRepr)
  | userRepr (r : UserRepr)
  | message (m : String)
deriving DecidableEq

/-- An HTTP response: status code and body. -/
structure Response where
  status : Nat
  body : RespBody
deriving DecidableEq

/-- `GET /posts/:id` handler (`server.js` lines 65-74).  `findById` with
an id that matches no document resolves to `null`; the success callback
then evaluates `post.apiRepr()` on `null`, which raises `TypeError`; the
`.catch` replies 500 with `error: 'something went horribly awry'`.
There is no 404 branch. -/
def getPostById (store : List BlogPost) (id : String) : Response :=
  match store.find? (fun p => p.id == id) with
  | some p => ⟨200, .postRepr p.apiRepr⟩
  | none => ⟨500, .message "something went horribly awry"⟩

/-- Request body of `POST /posts`: the handler only tests membership of
`title` and `content` and passes the values through to the store. -/
structure PostReqBody where
  title : Option String
  content : Option String
  author : Option Author
deriving DecidableEq

/-- `POST /posts` handler (`server.js` lines 76-98).  The loop over
`requiredFields = ['title', 'content']` replies 400 naming the first
field missing from the body; otherwise `BlogPost.create` persists the
document (the store assigns `freshId` and the `created` default) and the
handler replies 201 with its public representation. -/
def createPost (store : List BlogPost) (freshId : String) (now : Nat)
    (b : PostReqBody) : Response × List BlogPost :=
  match b.title with
  | none => (⟨400, .message "Missing `title` in request body"⟩, store)
  | some t =>
    match b.content with
    | none => (⟨400, .message "Missing `content` in request body"⟩, store)
    | some c =>
      let post : BlogPost :=
        ⟨freshId, b.author.getD ⟨none, none⟩, t, c, now⟩
      (⟨201, .postRepr post.apiRepr⟩, store ++ [post])

/-- Request body of `PUT /posts/:id`. -/
structure PutReqBody where
  id : Option String
  title : Option String
  content : Option String
  author : Option Author
deriving DecidableEq

/-- `$set` of the whitelisted fields gathered by the update handler:
exactly the fields present in the body among `title`, `content`,
`author` are overwritten, everything else keeps its stored value. -/
def setFields (b : PutReqBody) (p : BlogPost) : BlogPost :=
  { p with
    title := b.title.getD p.title
    content := b.content.getD p.content
    author := b.author.getD p.author }

/-- `BlogPost.findByIdAndUpdate(id, {$set: updated}, {new: true})`:
update the first document whose id matches and return it (after the
update), together with the new store contents. -/
def updateById : List BlogPost → String → PutReqBody → Option BlogPost × List BlogPost
  | [], _, _ => (none, [])
  | p :: rest, i, b =>
    if p.id == i then (some (setFields b p), setFields b p :: rest)
    else
      let r := updateById rest i b
      (r.1, p :: r.2)

/-- The guard `req.params.id && req.body.id && req.params.id === req.body.id`
of the update handler (`server.js` line 178), with JavaScript truthiness
of the two strings. -/
def idsMatch (pathId : String) (b : PutReqBody) : Bool :=
  (pathId != "") && (b.id.getD "" != "") && (b.id == some pathId)

/-- `PUT /posts/:id` handler (`server.js` lines 177-197).  When the guard
fails the handler sends the 400 mismatch response, but it does not
`return`: execution falls through and `findByIdAndUpdate` runs anyway, so
the store is mutated in every case.  (The later `res.status(201)` attempt
then throws because headers were already sent, so the client keeps the
400.)  When the guard passes, the updated document is returned with
status 201, or - if no document matched the id - `updatedPost.apiRepr()`
throws on `null` and the `.catch` replies 500. -/
def putPost (store : List BlogPost) (pathId : String) (b : PutReqBody) :
    Response × List BlogPost :=
  let r := updateById store pathId b
  if idsMatch pathId b then
    match r.1 with
    | some d => (⟨201, .postRepr d.apiRepr⟩, r.2)
    | none => (⟨500, .message "Something went wrong"⟩, r.2)
  else
    (⟨400, .message "Request path id and request body id values must match"⟩, r.2)

/-- Request body of `POST /users` as destructured by the handler:
`userName` and `password` are inspected as raw JavaScript values,
`firstName` and `lastName` are passed through to the store. -/
structure UsersReqBody where
  userName : Option JValue
  password : Option JValue
  firstName : Option String
  lastName : Option String
deriving DecidableEq

/-- The user-store operations the registration handler can perform, in
order: counting documents with a given `userName`, and inserting the new
document. -/
inductive UserStoreOp where
  | countByName (name : String)
  | insertUser (u : UserRec)
deriving DecidableEq

/-- `POST /users` handler (`server.js` lines 100-160), parameterised by
the external `User.hashPassword` (bcrypt with cost 10).  The validation
checks run synchronously in source order and each failure returns before
any store operation; on success the handler counts existing documents
with the trimmed `userName`, replies 400 if any exist (the rejected
`User.create` attempt that the fallthrough promise chain still makes
cannot persist anything, since casting the already-sent response object
fails), and otherwise persists `{userName, password: hash, firstName,
lastName}` and replies 201 with the new user's public representation.
The third component of the result records the store operations made. -/
def registerUser (hashFn : String → String) (store : List UserRec)
    (body : Option UsersReqBody) : Response × List UserRec × List UserStoreOp :=
  match body with
  | none => (⟨400, .message "Empty request body"⟩, store, [])
  | some b =>
    match b.userName with
    | none => (⟨422, .message "Missing username"⟩, store, [])
    | some v =>
      match v with
      | .str s =>
        let userName := jsTrim s
        if userName = "" then
          (⟨422, .message "Username is nonexistent"⟩, store, [])
        else if !(jsTruthyOpt b.password) then
          (⟨422, .message "Missing password"⟩, store, [])
        else
          match b.password with
          | some (.str ps) =>
            let password := jsTrim ps
            if password = "" then
              (⟨422, .message "password is nonexistent"⟩, store, [])
            else
              let cnt := (store.filter (fun u => u.userName == userName)).length
              if cnt > 0 then
                (⟨400, .message "This username already exists"⟩, store,
                  [.countByName userName])
              else
                let newU : UserRec := ⟨userName, hashFn password, b.firstName, b.lastName⟩
                (⟨201, .userRepr newU.apiRepr⟩, store ++ [newU],
                  [.countByName userName, .insertUser newU])
          | _ => (⟨422, .message "password must be a string"⟩, store, [])
      | _ => (⟨422, .message "Username must be a string"⟩, store, [])

/-! ## Helper lemmas -/

theorem dropWhileKeepsSuffix {α : Type} (p : α → Bool) (c : α) (r : List α)
    (hc : p c = false) :
    ∀ pre : List α, (c :: r) <:+ List.dropWhile p (pre ++ c :: r) := by
  intro pre
  induction pre with
  | nil =>
    rw [List.nil_append, List.dropWhile_cons, hc]
    simp
  | cons a rest ih =>
    rw [List.cons_append, List.dropWhile_cons]
    cases hpa : p a with
    | false =>
      simp only [Bool.false_eq_true, if_false]
      have h2 := List.suffix_append (a :: rest) (c :: r)
      rwa [List.cons_append] at h2
    | true =>
      simpa using ih

theorem dropWhileKeepsChunkSuffix {α : Type} (p : α → Bool) (u v : List α)
    (hu : ∀ x ∈ u, p x = false) (hne : u ≠ []) :
    ∀ pre : List α, (u ++ v) <:+ List.dropWhile p (pre ++ (u ++ v)) := by
  cases u with
  | nil => exact absurd rfl hne
  | cons c r =>
    intro pre
    have := dropWhileKeepsSuffix p c (r ++ v) (hu c (List.mem_cons_self c r)) pre
    simpa using this

/-- A non-empty all-non-whitespace chunk survives trimming: it is still a
contiguous part of the trimmed list. -/
theorem trimKeepsChunk (tgt pre post : List Char) (hne : tgt ≠ [])
    (h : ∀ x ∈ tgt, isJsWs x = false) :
    tgt <:+: jsTrimList (pre ++ tgt ++ post) := by
  have h1 := dropWhileKeepsChunkSuffix isJsWs tgt post h hne pre
  obtain ⟨s1, hs1⟩ := h1
  have hrev : ∀ x ∈ tgt.reverse, isJsWs x = false := by
    intro x hx; exact h x (List.mem_reverse.mp hx)
  have hner : tgt.reverse ≠ [] := by
    simpa using hne
  have h2 := dropWhileKeepsChunkSuffix isJsWs tgt.reverse s1.reverse hrev hner post.reverse
  obtain ⟨s2, hs2⟩ := h2
  refine ⟨s1, s2.reverse, ?_⟩
  unfold jsTrimList
  rw [List.append_assoc pre tgt post, ← hs1, List.reverse_append,
    List.reverse_append, List.append_assoc post.reverse tgt.reverse s1.reverse, ← hs2,
    List.reverse_append, List.reverse_append, List.reverse_reverse, List.reverse_reverse,
    List.append_assoc]

/-- Trimming a list that starts and ends with a non-whitespace character
changes nothing. -/
theorem jsTrimListNoop (c d : Char) (m : List Char)
    (hc : isJsWs c = false) (hd : isJsWs d = false) :
    jsTrimList (c :: (m ++ [d])) = c :: (m ++ [d]) := by
  unfold jsTrimList
  rw [List.dropWhile_cons, hc]
  simp only [Bool.false_eq_true, if_false]
  rw [List.reverse_cons, List.reverse_append, List.reverse_cons, List.reverse_nil,
    List.nil_append, List.singleton_append, List.cons_append, List.dropWhile_cons, hd]
  simp only [Bool.false_eq_true, if_false]
  simp

/-- A stand-in for the external bcrypt hash used to witness theorems that
assume the hash has no fixed point: surrounding with `#` marks. -/
theorem hashNoTrim (x : String) : jsTrim ("#" ++ x ++ "#") = "#" ++ x ++ "#" := by
  have h : ("#" ++ x ++ "#").data = '#' :: (x.data ++ ['#']) := by
    rw [String.data_append, String.data_append]
    rfl
  unfold jsTrim
  rw [h, jsTrimListNoop '#' '#' x.data (by decide) (by decide), ← h]

theorem hashNeFix (x : String) : "#" ++ x ++ "#" ≠ x := by
  intro h
  have h2 := congrArg String.length h
  rw [String.length_append, String.length_append] at h2
  have h1 : "#".length = 1 := rfl
  rw [h1] at h2
  omega

/-- A hash function with no fixed point whose output carries no
surrounding whitespace never returns the plaintext it was given, even
when the handler hashed the trimmed plaintext. -/
theorem hashNeverPlain (hashFn : String → String) (hfix : ∀ x, hashFn x ≠ x)
    (hws : ∀ x, jsTrim (hashFn x) = hashFn x) (p : String) :
    hashFn (jsTrim p) ≠ p := by
  intro h
  have h2 : jsTrim p = p := by
    calc jsTrim p = jsTrim (hashFn (jsTrim p)) := by rw [h]
    _ = hashFn (jsTrim p) := hws _
    _ = p := h
  rw [h2] at h
  exact hfix p h

/-- Computation of a successful registration: with a valid user name and
password and no existing user of that (trimmed) name, the handler counts,
hashes the trimmed password, persists, and replies 201 with the public
representation. -/
theorem registerUserSuccessEq (hashFn : String → String) (store : List UserRec)
    (s p : String) (f l : Option String)
    (hs : jsTrim s ≠ "") (hp : p ≠ "") (hpt : jsTrim p ≠ "")
    (hcnt : (store.filter (fun u => u.userName == jsTrim s)).length = 0) :
    registerUser hashFn store (some ⟨some (.str s), some (.str p), f, l⟩)
      = (⟨201, .userRepr ⟨jsTrim s, f, l⟩⟩,
         store ++ [⟨jsTrim s, hashFn (jsTrim p), f, l⟩],
         [.countByName (jsTrim s), .insertUser ⟨jsTrim s, hashFn (jsTrim p), f, l⟩]) := by
  unfold registerUser
  simp only [jsTruthyOpt, jsTruthy]
  rw [if_neg hs, if_neg (by simpa using hp)]
  simp only [hcnt]
  rw [if_neg hpt]
  simp [UserRec.apiRepr]

/-- Computation of a rejected duplicate registration: with a valid user
name and password but at least one existing user of that (trimmed) name,
the handler counts and replies 400 without inserting anything. -/
theorem registerUserDupEq (hashFn : String → String) (store : List UserRec)
    (s p : String) (f l : Option String)
    (hs : jsTrim s ≠ "") (hp : p ≠ "") (hpt : jsTrim p ≠ "")
    (hcnt : 0 < (store.filter (fun u => u.userName == jsTrim s)).length) :
    registerUser hashFn store (some ⟨some (.str s), some (.str p), f, l⟩)
      = (⟨400, .message "This username already exists"⟩, store,
         [.countByName (jsTrim s)]) := by
  unfold registerUser
  simp only [jsTruthyOpt, jsTruthy]
  rw [if_neg hs, if_neg (by simpa using hp), if_neg hpt, if_pos hcnt]

/-- `updateById` on a store whose earlier documents all miss the id:
exactly the first matching document is overwritten by the `$set`. -/
theorem updateByIdAppend (pre post : List BlogPost) (p : BlogPost) (i : String)
    (b : PutReqBody) (hp : p.id = i) (hpre : ∀ q ∈ pre, q.id ≠ i) :
    updateById (pre ++ p :: post) i b
      = (some (setFields b p), pre ++ setFields b p :: post) := by
  induction pre with
  | nil =>
    simp [updateById, hp]
  | cons a rest ih =>
    have ha : (a.id == i) = false := by
      simpa using hpre a (List.mem_cons_self a rest)
    rw [List.cons_append]
    simp only [updateById, ha, Bool.false_eq_true, if_false]
    rw [ih (fun q hq => hpre q (List.mem_cons_of_mem a hq))]
    simp

/-! ## Claim theorems -/

/-- Claim C1: the claim says a request with no Authorization header, one
with an unknown username, and one with a known username but failing
password verification all receive 401.  The code satisfies the first two
cases, but for a stored user the gate raises an internal error (HTTP 500)
instead of failing authentication, because `user.validatePassword` is not
a document method: evaluated at a store holding `alice` and a compare
function that rejects the supplied password, the outcome is
`internalError` (500), not `unauthenticated` (401). -/
theorem authGate_wrong_password_500_not_401 :
    authGate (fun _ _ => false) [⟨"alice", "hash", none, none⟩] none
      = .unauthenticated ∧
    authGate (fun _ _ => false) [⟨"alice", "hash", none, none⟩] (some ("paton", "pw"))
      = .unauthenticated ∧
    authHttpStatus .unauthenticated = some 401 ∧
    authGate (fun _ _ => false) [⟨"alice", "hash", none, none⟩] (some ("alice", "wrongpw"))
      = .internalError ∧
    authHttpStatus .internalError = some 500 := by
  decide

/-- Claim C2: whenever the Basic username resolves to a stored user, the
strategy's verification step errors out - `validatePassword` was assigned
on `userSchema.method` instead of `userSchema.methods`, so the document
has no such method - and the outcome is `internalError` for every
password; in particular it is never `authenticated`. -/
theorem basicStrategy_found_user_never_succeeds
    (compare : String → String → Bool) (store : List UserRec)
    (username password : String) (u : UserRec)
    (h : findOneUser store username = some u) :
    basicStrategy compare store username password = .internalError := by
  unfold basicStrategy
  rw [h]
  have hv : hasValidatePassword = false := rfl
  rw [hv]
  simp

theorem basicStrategy_found_user_never_succeeds_witness :
    findOneUser [⟨"alice", "hash", none, none⟩] "alice"
      = some ⟨"alice", "hash", none, none⟩ ∧
    basicStrategy (fun _ _ => true) [⟨"alice", "hash", none, none⟩] "alice" "baseball"
      = .internalError :=
  ⟨rfl, basicStrategy_found_user_never_succeeds (fun _ _ => true) _ "alice" "baseball" _ rfl⟩

/-- Claim C3: a registration that passes validation persists exactly one
new record whose `password` field is the hash of the (trimmed) submitted
password, and replies 201 with the public representation - a value of
`UserRepr`, which has fields `userName`, `firstName`, `lastName` and no
password field.  Under the assumptions that the external hash function
has no fixed point and produces no surrounding whitespace, the persisted
password differs from the submitted plaintext (and from its trimming). -/
theorem registerUser_hashes_before_persist (hashFn : String → String)
    (store : List UserRec) (s p : String) (f l : Option String)
    (hfix : ∀ x, hashFn x ≠ x) (hws : ∀ x, jsTrim (hashFn x) = hashFn x)
    (hs : jsTrim s ≠ "") (hp : p ≠ "") (hpt : jsTrim p ≠ "")
    (hcnt : (store.filter (fun u => u.userName == jsTrim s)).length = 0) :
    registerUser hashFn store (some ⟨some (.str s), some (.str p), f, l⟩)
      = (⟨201, .userRepr ⟨jsTrim s, f, l⟩⟩,
         store ++ [⟨jsTrim s, hashFn (jsTrim p), f, l⟩],
         [.countByName (jsTrim s), .insertUser ⟨jsTrim s, hashFn (jsTrim p), f, l⟩])
    ∧ hashFn (jsTrim p) ≠ p ∧ hashFn (jsTrim p) ≠ jsTrim p :=
  ⟨registerUserSuccessEq hashFn store s p f l hs hp hpt hcnt,
   hashNeverPlain hashFn hfix hws p,
   hfix (jsTrim p)⟩

theorem registerUser_hashes_before_persist_witness :
    registerUser (fun x => "#" ++ x ++ "#") []
        (some ⟨some (.str "abc"), some (.str "pw123"), none, none⟩)
      = (⟨201, .userRepr ⟨jsTrim "abc", none, none⟩⟩,
         [] ++ [⟨jsTrim "abc", (fun x => "#" ++ x ++ "#") (jsTrim "pw123"), none, none⟩],
         [.countByName (jsTrim "abc"),
          .insertUser ⟨jsTrim "abc", (fun x => "#" ++ x ++ "#") (jsTrim "pw123"), none, none⟩])
    ∧ (fun x => "#" ++ x ++ "#") (jsTrim "pw123") ≠ "pw123"
    ∧ (fun x => "#" ++ x ++ "#") (jsTrim "pw123") ≠ jsTrim "pw123" :=
  registerUser_hashes_before_persist (fun x => "#" ++ x ++ "#") [] "abc" "pw123"
    none none (fun x => hashNeFix x) (fun x => hashNoTrim x)
    (by decide) (by decide) (by decide) rfl

/-- Claim C4: the claim says a PUT with mismatching body and path ids
returns 400 and leaves the post unmutated.  The code does send the 400,
but the handler does not return after sending it, so `findByIdAndUpdate`
still runs: evaluated at a store holding post `5` and a body carrying
id `6` and a new title, the response is the 400 mismatch message AND the
stored post's title has changed. -/
theorem putPost_mismatch_still_updates :
    putPost [⟨"5", ⟨some "Jamie", some "Paton"⟩, "old title", "old content", 0⟩]
        "5" ⟨some "6", some "new title", none, none⟩
      = (⟨400, .message "Request path id and request body id values must match"⟩,
         [⟨"5", ⟨some "Jamie", some "Paton"⟩, "new title", "old content", 0⟩]) := by
  decide

/-- Claim C5: the registration validations run in source order with the
first failure winning: a missing request body gives 400; then missing
`userName`, non-string `userName`, empty trimmed `userName`, falsy
`password`, truthy non-string `password`, and whitespace-only `password`
each give 422 with the corresponding message - and each failure returns
with the store untouched and no store operation performed. -/
theorem registerUser_validation_order (hashFn : String → String)
    (store : List UserRec) (b : UsersReqBody) :
    (registerUser hashFn store none
      = (⟨400, .message "Empty request body"⟩, store, [])) ∧
    (b.userName = none →
      registerUser hashFn store (some b)
        = (⟨422, .message "Missing username"⟩, store, [])) ∧
    (∀ v, b.userName = some v → jsIsString v = false →
      registerUser hashFn store (some b)
        = (⟨422, .message "Username must be a string"⟩, store, [])) ∧
    (∀ s, b.userName = some (.str s) → jsTrim s = "" →
      registerUser hashFn store (some b)
        = (⟨422, .message "Username is nonexistent"⟩, store, [])) ∧
    (∀ s, b.userName = some (.str s) → jsTrim s ≠ "" →
      jsTruthyOpt b.password = false →
      registerUser hashFn store (some b)
        = (⟨422, .message "Missing password"⟩, store, [])) ∧
    (∀ s v, b.userName = some (.str s) → jsTrim s ≠ "" → b.password = some v →
      jsTruthy v = true → jsIsString v = false →
      registerUser hashFn store (some b)
        = (⟨422, .message "password must be a string"⟩, store, [])) ∧
    (∀ s ps, b.userName = some (.str s) → jsTrim s ≠ "" →
      b.password = some (.str ps) → ps ≠ "" → jsTrim ps = "" →
      registerUser hashFn store (some b)
        = (⟨422, .message "password is nonexistent"⟩, store, [])) := by
  obtain ⟨bu, bp, bf, bl⟩ := b
  refine ⟨rfl, ?_, ?_, ?_, ?_, ?_, ?_⟩
  · intro h
    simp only at h
    subst h
    rfl
  · intro v hv hns
    simp only at hv
    subst hv
    cases v with
    | str s => simp [jsIsString] at hns
    | num n => rfl
    | bool bb => rfl
    | null => rfl
    | obj => rfl
  · intro s hv htrim
    simp only at hv
    subst hv
    simp only [registerUser]
    rw [if_pos htrim]
  · intro s hv htrim hfalsy
    simp only at hv hfalsy
    subst hv
    simp only [registerUser]
    rw [if_neg htrim, hfalsy]
    simp
  · intro s v hv htrim hbp htruthy hns
    simp only at hv hbp
    subst hv
    subst hbp
    simp only [registerUser]
    rw [if_neg htrim]
    simp only [jsTruthyOpt, htruthy, Bool.not_true, Bool.false_eq_true, if_false]
    cases v with
    | str s2 => simp [jsIsString] at hns
    | num n => rfl
    | bool bb => rfl
    | null => rfl
    | obj => rfl
  · intro s ps hv htrim hbp hps htrimp
    simp only at hv hbp
    subst hv
    subst hbp
    simp only [registerUser]
    rw [if_neg htrim]
    simp only [jsTruthyOpt, jsTruthy]
    rw [if_neg (by simpa using hps), if_pos htrimp]

theorem registerUser_validation_order_witness :
    (registerUser (fun x => x) [] none
      = (⟨400, .message "Empty request body"⟩, [], [])) ∧
    (registerUser (fun x => x) [] (some ⟨none, none, none, none⟩)
      = (⟨422, .message "Missing username"⟩, [], [])) ∧
    (registerUser (fun x => x) [] (some ⟨some .null, none, none, none⟩)
      = (⟨422, .message "Username must be a string"⟩, [], [])) ∧
    (registerUser (fun x => x) [] (some ⟨some (.str "  "), none, none, none⟩)
      = (⟨422, .message "Username is nonexistent"⟩, [], [])) ∧
    (registerUser (fun x => x) [] (some ⟨some (.str "abc"), none, none, none⟩)
      = (⟨422, .message "Missing password"⟩, [], [])) ∧
    (registerUser (fun x => x) [] (some ⟨some (.str "abc"), some (.num 5), none, none⟩)
      = (⟨422, .message "password must be a string"⟩, [], [])) ∧
    (registerUser (fun x => x) [] (some ⟨some (.str "abc"), some (.str "  "), none, none⟩)
      = (⟨422, .message "password is nonexistent"⟩, [], [])) :=
  ⟨(registerUser_validation_order (fun x => x) [] ⟨none, none, none, none⟩).1,
   (registerUser_validation_order (fun x => x) [] ⟨none, none, none, none⟩).2.1 rfl,
   (registerUser_validation_order (fun x => x) [] ⟨some .null, none, none, none⟩).2.2.1
     .null rfl rfl,
   (registerUser_validation_order (fun x => x) [] ⟨some (.str "  "), none, none, none⟩).2.2.2.1
     "  " rfl (by decide),
   (registerUser_validation_order (fun x => x) [] ⟨some (.str "abc"), none, none, none⟩).2.2.2.2.1
     "abc" rfl (by decide) rfl,
   (registerUser_validation_order (fun x => x)
       [] ⟨some (.str "abc"), some (.num 5), none, none⟩).2.2.2.2.2.1
     "abc" (.num 5) rfl (by decide) rfl (by decide) rfl,
   (registerUser_validation_order (fun x => x)
       [] ⟨some (.str "abc"), some (.str "  "), none, none⟩).2.2.2.2.2.2
     "abc" "  " rfl (by decide) rfl (by decide) (by decide)⟩

/-- Claim C6: starting from a store with no user of the (trimmed) name,
a first valid registration succeeds with 201; a second registration with
the same `userName` then receives 400 "This username already exists",
determined by the count of existing matches, and performs no insertion
(its store-operation trace is the count alone and the store is returned
unchanged). -/
theorem registerUser_duplicate_second_400 (hashFn : String → String)
    (store : List UserRec) (s p p2 : String) (f l f2 l2 : Option String)
    (hs : jsTrim s ≠ "") (hp : p ≠ "") (hpt : jsTrim p ≠ "")
    (hp2 : p2 ≠ "") (hpt2 : jsTrim p2 ≠ "")
    (hcnt : (store.filter (fun u => u.userName == jsTrim s)).length = 0) :
    (registerUser hashFn store (some ⟨some (.str s), some (.str p), f, l⟩)).1.status
      = 201 ∧
    registerUser hashFn
        (registerUser hashFn store (some ⟨some (.str s), some (.str p), f, l⟩)).2.1
        (some ⟨some (.str s), some (.str p2), f2, l2⟩)
      = (⟨400, .message "This username already exists"⟩,
         (registerUser hashFn store (some ⟨some (.str s), some (.str p), f, l⟩)).2.1,
         [.countByName (jsTrim s)]) := by
  have h1 := registerUserSuccessEq hashFn store s p f l hs hp hpt hcnt
  constructor
  · rw [h1]
  · rw [h1]
    apply registerUserDupEq hashFn _ s p2 f2 l2 hs hp2 hpt2
    rw [List.filter_append, List.length_append]
    simp

theorem registerUser_duplicate_second_400_witness :
    (registerUser (fun x => x) [] (some ⟨some (.str "abc"), some (.str "pw123"), none, none⟩)).1.status
      = 201 ∧
    registerUser (fun x => x)
        (registerUser (fun x => x) [] (some ⟨some (.str "abc"), some (.str "pw123"), none, none⟩)).2.1
        (some ⟨some (.str "abc"), some (.str "other"), none, none⟩)
      = (⟨400, .message "This username already exists"⟩,
         (registerUser (fun x => x) [] (some ⟨some (.str "abc"), some (.str "pw123"), none, none⟩)).2.1,
         [.countByName (jsTrim "abc")]) :=
  registerUser_duplicate_second_400 (fun x => x) [] "abc" "pw123" "other"
    none none none none (by decide) (by decide) (by decide) (by decide) (by decide) rfl

/-- Claim C7: post creation replies 400 naming `title` when it is absent
and 400 naming `content` when `title` is present but `content` absent, in
both cases persisting nothing; when both are present (author names
submitted as strings) it persists the document and replies 201 with a
representation whose `title` and `content` equal the submitted values and
whose `author` is the trimmed concatenation of the submitted first and
last names. -/
theorem createPost_validates_and_echoes (store : List BlogPost)
    (freshId : String) (now : Nat) (b : PostReqBody) :
    (b.title = none →
      createPost store freshId now b
        = (⟨400, .message "Missing `title` in request body"⟩, store)) ∧
    (∀ t, b.title = some t → b.content = none →
      createPost store freshId now b
        = (⟨400, .message "Missing `content` in request body"⟩, store)) ∧
    (∀ t c f l, b.title = some t → b.content = some c →
      b.author = some ⟨some f, some l⟩ →
      createPost store freshId now b
        = (⟨201, .postRepr ⟨freshId, jsTrim (f ++ " " ++ l), c, t, now⟩⟩,
           store ++ [⟨freshId, ⟨some f, some l⟩, t, c, now⟩])) := by
  obtain ⟨bt, bc, ba⟩ := b
  refine ⟨?_, ?_, ?_⟩
  · intro h
    simp only at h
    subst h
    rfl
  · intro t ht hc
    simp only at ht hc
    subst ht
    subst hc
    rfl
  · intro t c f l ht hc ha
    simp only at ht hc ha
    subst ht
    subst hc
    subst ha
    simp [createPost, BlogPost.apiRepr, BlogPost.authorName, jsShow]

theorem createPost_validates_and_echoes_witness :
    (createPost [] "id1" 7 ⟨none, some "c", none⟩
      = (⟨400, .message "Missing `title` in request body"⟩, [])) ∧
    (createPost [] "id1" 7 ⟨some "t", none, none⟩
      = (⟨400, .message "Missing `content` in request body"⟩, [])) ∧
    (createPost [] "id1" 7 ⟨some "t", some "c", some ⟨some "Jamie", some "Paton"⟩⟩
      = (⟨201, .postRepr ⟨"id1", jsTrim ("Jamie" ++ " " ++ "Paton"), "c", "t", 7⟩⟩,
         [] ++ [⟨"id1", ⟨some "Jamie", some "Paton"⟩, "t", "c", 7⟩])) :=
  ⟨(createPost_validates_and_echoes [] "id1" 7 ⟨none, some "c", none⟩).1 rfl,
   (createPost_validates_and_echoes [] "id1" 7 ⟨some "t", none, none⟩).2.1 "t" rfl rfl,
   (createPost_validates_and_echoes [] "id1" 7
       ⟨some "t", some "c", some ⟨some "Jamie", some "Paton"⟩⟩).2.2
     "t" "c" "Jamie" "Paton" rfl rfl rfl⟩

/-- Claim C8: a PUT whose body id matches the path id overwrites exactly
the whitelisted fields present in the body on the first stored post with
that id: each of `title`, `content`, `author` takes the body value when
present and keeps its prior value when absent, `id` and `created` are
unchanged, every other stored post is untouched, and the handler replies
201 with the updated representation. -/
theorem putPost_partial_update (pre post : List BlogPost) (p : BlogPost)
    (b : PutReqBody) (pathId : String)
    (hpath : pathId ≠ "") (hid : p.id = pathId) (hbid : b.id = some pathId)
    (hpre : ∀ q ∈ pre, q.id ≠ pathId) :
    putPost (pre ++ p :: post) pathId b
      = (⟨201, .postRepr (setFields b p).apiRepr⟩, pre ++ setFields b p :: post) ∧
    (setFields b p).title = b.title.getD p.title ∧
    (setFields b p).content = b.content.getD p.content ∧
    (setFields b p).author = b.author.getD p.author ∧
    (setFields b p).id = p.id ∧
    (setFields b p).created = p.created := by
  refine ⟨?_, rfl, rfl, rfl, rfl, rfl⟩
  have hmatch : idsMatch pathId b = true := by
    simp [idsMatch, hbid, hpath]
  simp only [putPost]
  rw [updateByIdAppend pre post p pathId b hid hpre, hmatch]
  simp

theorem putPost_partial_update_witness :
    putPost ([⟨"4", ⟨none, none⟩, "t4", "c4", 4⟩]
        ++ ⟨"5", ⟨some "Jamie", some "Paton"⟩, "old title", "old content", 0⟩
        :: [⟨"6", ⟨none, none⟩, "t6", "c6", 6⟩])
        "5" ⟨some "5", some "new title", none, none⟩
      = (⟨201, .postRepr (setFields ⟨some "5", some "new title", none, none⟩
            ⟨"5", ⟨some "Jamie", some "Paton"⟩, "old title", "old content", 0⟩).apiRepr⟩,
         [⟨"4", ⟨none, none⟩, "t4", "c4", 4⟩]
           ++ setFields ⟨some "5", some "new title", none, none⟩
               ⟨"5", ⟨some "Jamie", some "Paton"⟩, "old title", "old content", 0⟩
           :: [⟨"6", ⟨none, none⟩, "t6", "c6", 6⟩]) ∧
    (setFields ⟨some "5", some "new title", none, none⟩
        ⟨"5", ⟨some "Jamie", some "Paton"⟩, "old title", "old content", 0⟩).title
      = (some "new title").getD "old title" ∧
    (setFields ⟨some "5", some "new title", none, none⟩
        ⟨"5", ⟨some "Jamie", some "Paton"⟩, "old title", "old content", 0⟩).content
      = (none : Option String).getD "old content" ∧
    (setFields ⟨some "5", some "new title", none, none⟩
        ⟨"5", ⟨some "Jamie", some "Paton"⟩, "old title", "old content", 0⟩).author
      = (none : Option Author).getD ⟨some "Jamie", some "Paton"⟩ ∧
    (setFields ⟨some "5", some "new title", none, none⟩
        ⟨"5", ⟨some "Jamie", some "Paton"⟩, "old title", "old content", 0⟩).id = "5" ∧
    (setFields ⟨some "5", some "new title", none, none⟩
        ⟨"5", ⟨some "Jamie", some "Paton"⟩, "old title", "old content", 0⟩).created = 0 :=
  putPost_partial_update [⟨"4", ⟨none, none⟩, "t4", "c4", 4⟩]
    [⟨"6", ⟨none, none⟩, "t6", "c6", 6⟩]
    ⟨"5", ⟨some "Jamie", some "Paton"⟩, "old title", "old content", 0⟩
    ⟨some "5", some "new title", none, none⟩ "5"
    (by decide) rfl rfl (by decide)

/-- Claim C9: the claim says a GET for a syntactically valid but
nonexistent post id yields 404.  The code has no 404 branch: `findById`
resolves to `null`, the success callback evaluates `post.apiRepr()` on it,
the thrown `TypeError` lands in the `.catch`, and the client receives 500
with "something went horribly awry" - evaluated here at a store that does
not contain the requested id. -/
theorem getPostById_missing_gives_500 :
    getPostById [⟨"a1", ⟨some "Jamie", some "Paton"⟩, "t", "c", 0⟩]
        "507f191e810c19729de860ea"
      = ⟨500, .message "something went horribly awry"⟩ := by
  decide

/-- Claim C10: when both author names are absent the derived `authorName`
is the literal text "undefined undefined" (not the empty string), and
when exactly one name is absent the derived string still contains the
literal text "undefined" as a contiguous substring (the template
interpolates the missing field before trimming). -/
theorem authorName_interpolates_undefined (p : BlogPost) :
    (p.author.firstName = none → p.author.lastName = none →
      p.authorName = "undefined undefined") ∧
    (∀ l, p.author.firstName = none → p.author.lastName = some l →
      "undefined".data <:+: p.authorName.data) ∧
    (∀ f, p.author.firstName = some f → p.author.lastName = none →
      "undefined".data <:+: p.authorName.data) := by
  refine ⟨?_, ?_, ?_⟩
  · intro h1 h2
    unfold BlogPost.authorName
    rw [h1, h2]
    decide
  · intro l h1 h2
    unfold BlogPost.authorName
    rw [h1, h2]
    show "undefined".data <:+: jsTrimList ("undefined" ++ " " ++ l).data
    have hdata : ("undefined" ++ " " ++ l).data
        = [] ++ "undefined".data ++ (' ' :: l.data) := by
      rw [String.data_append, String.data_append, List.append_assoc, List.nil_append]
      rfl
    rw [hdata]
    exact trimKeepsChunk "undefined".data [] (' ' :: l.data) (by decide) (by decide)
  · intro f h1 h2
    unfold BlogPost.authorName
    rw [h1, h2]
    show "undefined".data <:+: jsTrimList (f ++ " " ++ "undefined").data
    have hdata : (f ++ " " ++ "undefined").data
        = (f.data ++ [' ']) ++ "undefined".data ++ [] := by
      rw [String.data_append, String.data_append, List.append_nil]
    rw [hdata]
    exact trimKeepsChunk "undefined".data (f.data ++ [' ']) [] (by decide) (by decide)

theorem authorName_interpolates_undefined_witness :
    BlogPost.authorName ⟨"i", ⟨none, none⟩, "t", "c", 0⟩ = "undefined undefined" ∧
    "undefined".data <:+: (BlogPost.authorName ⟨"i", ⟨none, some "Paton"⟩, "t", "c", 0⟩).data ∧
    "undefined".data <:+: (BlogPost.authorName ⟨"i", ⟨some "Jamie", none⟩, "t", "c", 0⟩).data :=
  ⟨(authorName_interpolates_undefined ⟨"i", ⟨none, none⟩, "t", "c", 0⟩).1 rfl rfl,
   (authorName_interpolates_undefined ⟨"i", ⟨none, some "Paton"⟩, "t", "c", 0⟩).2.1
     "Paton" rfl rfl,
   (authorName_interpolates_undefined ⟨"i", ⟨some "Jamie", none⟩, "t", "c", 0⟩).2.2
     "Jamie" rfl rfl⟩
